import Mathlib

/-!
Shallow embedding of the rejection-batch processing pipeline
(supabase edge functions: process-pre-bcp-txt, process-pre-bcp-xlsx,
process-rechazo-ibk).  Strings are modelled as Lean `String` / `List Char`,
JS numbers carrying monetary values as exact rationals `ℚ`, fallible
handlers as `Except String`.
-/

namespace Rechazos

/-! ## JavaScript string primitives -/

/-- Characters matched by the JS regex class `\s` / stripped by `trim`
(ASCII whitespace plus NBSP). -/
def isJsSpace (c : Char) : Bool :=
  c = ' ' || c = '\t' || c = '\n' || c = '\r' || c = '\x0b' || c = '\x0c' || c = ' '

/-- JS `String.prototype.trim`. -/
def jsTrim (l : List Char) : List Char :=
  ((l.dropWhile isJsSpace).reverse.dropWhile isJsSpace).reverse

/-- JS `String.prototype.trim` on `String`. -/
def jsTrimS (s : String) : String :=
  String.mk (jsTrim s.data)

/-- JS `String.prototype.slice(b, e)` (negative ends count from the end). -/
def jsSlice (l : List Char) (b e : Int) : List Char :=
  let len : Int := l.length
  let b' : Int := if b < 0 then max (len + b) 0 else min b len
  let e' : Int := if e < 0 then max (len + e) 0 else min e len
  if b' < e' then (l.take e'.toNat).drop b'.toNat else []

/-- JS `String.prototype.split(sep)` for a one-character separator. -/
def splitOnChar (sep : Char) : List Char → List (List Char)
  | [] => [[]]
  | c :: t =>
    match splitOnChar sep t with
    | [] => [[]]
    | h :: r => if c = sep then [] :: h :: r else (c :: h) :: r

/-- `leadsWith needle hay` is true when `needle` occurs at the start of `hay`. -/
def leadsWith : List Char → List Char → Bool
  | [], _ => true
  | _ :: _, [] => false
  | a :: as, b :: bs => a = b && leadsWith as bs

/-- JS `String.prototype.includes(needle)`: `needle` occurs somewhere in `hay`. -/
def hasSub (needle : List Char) : List Char → Bool
  | [] => leadsWith needle []
  | c :: t => leadsWith needle (c :: t) || hasSub needle t

/-- JS `String.prototype.toLowerCase` (ASCII range, enough for this code). -/
def jsLower (s : String) : String :=
  String.mk (s.data.map Char.toLower)

/-- JS `a || b` on strings (empty string is falsy). -/
def jsOrS (a b : String) : String :=
  if a = "" then b else a

/-- Spreadsheet cell access `row[i]` with the `defval: ''` default. -/
def cellD (row : List String) (i : Nat) : String :=
  row.getD i ""

/-! ## Numeric primitives -/

/-- Value of a run of decimal digit characters (JS `parseInt` on an
all-digit capture). -/
def digitsToNat (l : List Char) : Nat :=
  l.foldl (fun a c => 10 * a + (c.toNat - '0'.toNat)) 0

/-- JS `parseFloat` on exponent-free input, split into its discrete parts:
optional sign, integer digits, optional `.` plus fraction digits; `none`
models `NaN` (no digit parsed).  The result is
(negative sign seen, integer value, fraction value, fraction length). -/
def jsParseFloatParts (l : List Char) : Option (Bool × Nat × Nat × Nat) :=
  let c0 := l.headD ' '
  let r := if c0 = '-' || c0 = '+' then l.tail else l
  let ip := r.takeWhile (fun c => c.isDigit)
  let r2 := r.drop ip.length
  let fp := if r2.headD ' ' = '.' then r2.tail.takeWhile (fun c => c.isDigit) else []
  if ip.isEmpty && fp.isEmpty then none
  else some (c0 = '-', digitsToNat ip, digitsToNat fp, fp.length)

/-- Numeric value of the parts produced by `jsParseFloatParts`. -/
def partsToRat (p : Bool × Nat × Nat × Nat) : ℚ :=
  (if p.1 then -1 else 1) * ((p.2.1 : ℚ) + (p.2.2.1 : ℚ) / (10 : ℚ) ^ p.2.2.2)

/-- JS `parseFloat` on exponent-free input; `none` models `NaN`. -/
def jsParseFloat (l : List Char) : Option ℚ :=
  (jsParseFloatParts l).map partsToRat

/-! ## AmountParser (`parseAmount` in all three edge functions) -/

/-- The character class kept by `raw.replace(/[^\d,.-]/g, "")`. -/
def keepChar (c : Char) : Bool :=
  c.isDigit || c = ',' || c = '.' || c = '-'

/-- `raw.replace(/[^\d,.-]/g, "")`. -/
def stripOther (l : List Char) : List Char :=
  l.filter keepChar

/-- The separator disambiguation step:
if both `.` and `,` occur, remove every `.` and turn `,` into `.`;
else if only `,` occurs, turn `,` into `.`; else leave unchanged. -/
def fixSeparators (l : List Char) : List Char :=
  if l.contains '.' && l.contains ',' then
    (l.filter (fun c => c ≠ '.')).map (fun c => if c = ',' then '.' else c)
  else if l.contains ',' then
    l.map (fun c => if c = ',' then '.' else c)
  else l

/-- The multi-dot collapse: `parts = s.split('.')`; when more than two
parts remain, join all but the last without separator and re-append the
last part as the fraction. -/
def collapseDots (l : List Char) : List Char :=
  let parts := splitOnChar '.' l
  if 2 < parts.length then (parts.dropLast).flatten ++ '.' :: parts.getLastD []
  else l

/-- `parseAmount(raw)` for a string argument: empty input short-circuits
to 0; otherwise strip, disambiguate separators, collapse extra dots,
`parseFloat`, and coerce a failed parse (`NaN`) to 0 (`|| 0.0`). -/
def parseAmount (raw : String) : ℚ :=
  if raw = "" then 0
  else (jsParseFloat (collapseDots (fixSeparators (stripOther raw.data)))).getD 0

/-- `parseAmount(raw)` for a possibly absent argument
(`raw === null || raw === undefined` returns 0.0). -/
def parseAmountAny (raw : Option String) : ℚ :=
  match raw with
  | none => 0
  | some s => parseAmount s

/-! ## FixedFieldExtractor (`sliceFixed` in process-pre-bcp-txt) -/

/-- A 1-based inclusive column range of the fixed-width text schema. -/
structure FixedRange where
  first : Int
  last : Int

def TXT_POS_dni : FixedRange := ⟨25, 33⟩
def TXT_POS_nombre : FixedRange := ⟨40, 85⟩
def TXT_POS_referencia : FixedRange := ⟨115, 126⟩
def TXT_POS_importe : FixedRange := ⟨186, 195⟩

/-- `sliceFixed(line, start, end)`: empty line yields `""`; otherwise the
0-based offset is `max 0 (start-1)`; an offset past the line yields `""`;
otherwise `line.slice(offset, end).trim()`. -/
def sliceFixed (line : List Char) (start stop : Int) : List Char :=
  if line = [] then []
  else
    let idx : Int := max 0 (start - 1)
    if idx < (line.length : Int) then jsTrim (jsSlice line idx stop) else []

/-! ## RegistroExtractor -/

/-- Try to match `/Registro\s+(\d{...})/` at the head of `l`; on success
return the captured value and the suffix following the match.  `cap`
bounds the digit run (`some 5` for `\d{1,5}`, `none` for `\d+`). -/
def matchRegistroAt (cap : Option Nat) (l : List Char) : Option (Nat × List Char) :=
  if leadsWith "Registro".data l then
    let r1 := l.drop 8
    let ws := r1.takeWhile isJsSpace
    if ws = [] then none
    else
      let r2 := r1.drop ws.length
      let run := r2.takeWhile (fun c => c.isDigit)
      let ds := match cap with
        | some k => run.take k
        | none => run
      if ds = [] then none
      else some (digitsToNat ds, r2.drop ds.length)
  else none

/-- Left-to-right regex scan (`matchAll`): at each position try the
pattern; on success emit the capture and resume after the match, else
advance one character.  `fuel` bounds recursion; each step consumes at
least one character, so `fuel = length` is always enough. -/
def scanAux (cap : Option Nat) : Nat → List Char → List Nat
  | 0, _ => []
  | _, [] => []
  | fuel + 1, c :: t =>
    match matchRegistroAt cap (c :: t) with
    | some (n, rest) => n :: scanAux cap fuel rest
    | none => scanAux cap fuel t

/-- All captures of `/Registro\s+(\d{1,5})/g` over the document text. -/
def scanRegistros (l : List Char) : List Nat :=
  scanAux (some 5) l.length l

/-- All captures of `/Registro\s+(\d+)/g` over the document text. -/
def scanRegistrosUnbounded (l : List Char) : List Nat :=
  scanAux none l.length l

/-- JS `Array.from(new Set(xs))`: deduplicate keeping first occurrences. -/
def jsSetDedup (l : List Nat) : List Nat :=
  l.foldl (fun acc a => if a ∈ acc then acc else acc ++ [a]) []

/-- `extractRegistrosFromPdf`: scan for `Registro\s+(\d{1,5})`, dedupe via
a `Set`, sort ascending. -/
def extractRegistrosFromPdf (l : List Char) : List Nat :=
  List.insertionSort (· ≤ ·) (jsSetDedup (scanRegistros l))

/-- `extractRowNumbersFromPdf`: scan for `Registro\s+(\d+)`, add 1 to each
capture, dedupe via a `Set`, sort ascending. -/
def extractRowNumbersFromPdf (l : List Char) : List Nat :=
  List.insertionSort (· ≤ ·) (jsSetDedup ((scanRegistrosUnbounded l).map (· + 1)))

/-! ## RowIndexMapper -/

/-- Stride of the fixed-width text format (each record spans 2 lines). -/
def MULT : Nat := 2

/-- Text path: `registros.map(r => r * MULT).sort((a,b) => a-b)` followed
by the in-loop bound check `i >= 1 && i <= lines.length`. -/
def acceptedLineIndices (registros : List Nat) (totalLines : Nat) : List Nat :=
  (List.insertionSort (· ≤ ·) (registros.map (fun r => r * MULT))).filter
    (fun i => decide (1 ≤ i) && decide (i ≤ totalLines))

/-- Spreadsheet path: `rowNumbers.filter(i => i >= 0 && i < data.length)`. -/
def acceptedRowIndices (rowNumbers : List Nat) (rowCount : Nat) : List Nat :=
  rowNumbers.filter (fun i => decide (0 ≤ i) && decide (i < rowCount))

/-! ## RecordBuilder and BatchAggregator -/

def ESTADO : String := "rechazada"

/-- The canonical output record (JSON keys "dni/cex", "nombre",
"importe", "Referencia", "Estado", "Codigo de Rechazo",
"Descripcion de Rechazo"). -/
structure RejectionRecord where
  dniCex : String
  nombre : String
  importe : ℚ
  referencia : String
  estado : String
  codigoRechazo : String
  descripcionRechazo : String
deriving DecidableEq, Repr

/-- The success payload `{results, totalTransactions, totalAmount}`. -/
structure Payload where
  results : List RejectionRecord
  totalTransactions : Nat
  totalAmount : ℚ
deriving DecidableEq, Repr

/-- `rows.length` and `rows.reduce((sum, row) => sum + row.importe, 0)`
over the emitted record list. -/
def aggregateRows (rows : List RejectionRecord) : Payload :=
  { results := rows
    totalTransactions := rows.length
    totalAmount := rows.foldl (fun s r => s + r.importe) 0 }

/-- Record built from one fixed-width text line (process-pre-bcp-txt). -/
def buildTxtRecord (ln : List Char) (code desc : String) : RejectionRecord :=
  { dniCex := String.mk (sliceFixed ln TXT_POS_dni.first TXT_POS_dni.last)
    nombre := String.mk (sliceFixed ln TXT_POS_nombre.first TXT_POS_nombre.last)
    importe := parseAmount (String.mk (sliceFixed ln TXT_POS_importe.first TXT_POS_importe.last))
    referencia := String.mk (sliceFixed ln TXT_POS_referencia.first TXT_POS_referencia.last)
    estado := ESTADO
    codigoRechazo := code
    descripcionRechazo := desc }

/-- Record built from one selected spreadsheet row (process-pre-bcp-xlsx):
identifier at column 0, name at column 3 falling back to column 1,
amount at column 12, reference at column 7. -/
def buildXlsxRecord (row : List String) (code desc : String) : RejectionRecord :=
  { dniCex := cellD row 0
    nombre := jsOrS (cellD row 3) (cellD row 1)
    importe := parseAmount (cellD row 12)
    referencia := cellD row 7
    estado := ESTADO
    codigoRechazo := code
    descripcionRechazo := desc }

/-! ## process-rechazo-ibk row pipeline -/

def KEYWORDS_NO_TIT : List String :=
  ["no es titular",
   "beneficiario no",
   "cliente no titular",
   "no titular",
   "continuar",
   "puedes continuar",
   "si deseas, puedes continuar"]

/-- `KEYWORDS_NO_TIT.some(kw => situacion.includes(kw))` over the
lower-cased status text. -/
def ibkNoTitular (s : String) : Bool :=
  KEYWORDS_NO_TIT.any (fun kw => hasSub kw.data (jsLower s).data)

/-- Rows from index 11 on whose column O (index 14) is non-empty after
`String(...).trim()`. -/
def ibkQualifyingRows (data : List (List String)) : List (List String) :=
  (data.drop 11).filter (fun row => decide (jsTrimS (cellD row 14) ≠ ""))

/-- Record built from one qualifying IBK sheet row: identifier at index 4,
name at index 5, amount at index 13, reference at index 7; code R016 when
a "no titular" keyword occurs in the lower-cased status, else R002. -/
def mkIbkRecord (row : List String) : RejectionRecord :=
  let isNoTitular := ibkNoTitular (cellD row 14)
  { dniCex := cellD row 4
    nombre := cellD row 5
    importe := parseAmount (cellD row 13)
    referencia := cellD row 7
    estado := ESTADO
    codigoRechazo := if isNoTitular then "R016" else "R002"
    descripcionRechazo :=
      if isNoTitular then "CLIENTE NO TITULAR DE LA CUENTA" else "CUENTA INVALIDA" }

/-- The archive-path pipeline after the external zip/xlsx decode: select
qualifying rows, build records, aggregate. -/
def processRechazoIbkData (data : List (List String)) : Payload :=
  aggregateRows ((ibkQualifyingRows data).map mkIbkRecord)

/-! ## Orchestrators (serve handlers, after the external byte decode) -/

/-- process-pre-bcp-txt handler: missing pdf or txt throws
"Missing files"; otherwise split the companion text into lines, extract
registros from the PDF text, map them to line indices (stride 2,
1-based bound check), build one record per accepted line, aggregate. -/
def processPreBcpTxt (pdf : Option String) (txt : Option String)
    (code desc : String) : Except String Payload :=
  match pdf, txt with
  | some pdfText, some txtContent =>
    let lines := splitOnChar '\n' txtContent.data
    let registros := extractRegistrosFromPdf pdfText.data
    let rows := (acceptedLineIndices registros lines.length).map
      (fun i => buildTxtRecord (lines.getD (i - 1) []) code desc)
    Except.ok (aggregateRows rows)
  | _, _ => Except.error "Missing files"

/-- process-pre-bcp-xlsx handler: missing pdf or excel throws
"Missing files"; otherwise extract shifted row numbers from the PDF text,
keep those in `[0, data.length)`, build one record per selected sheet row,
aggregate. -/
def processPreBcpXlsx (pdf : Option String) (sheet : Option (List (List String)))
    (code desc : String) : Except String Payload :=
  match pdf, sheet with
  | some pdfText, some data =>
    let rowNumbers := extractRowNumbersFromPdf pdfText.data
    let validRows := acceptedRowIndices rowNumbers data.length
    let selected := validRows.map (fun i => data.getD i [])
    let rows := selected.map (fun row => buildXlsxRecord row code desc)
    Except.ok (aggregateRows rows)
  | _, _ => Except.error "Missing files"

/-! ## Helper lemmas -/

lemma parseAmount_parts (raw : String) (p : Bool × Nat × Nat × Nat)
    (h0 : raw ≠ "")
    (h : jsParseFloatParts (collapseDots (fixSeparators (stripOther raw.data))) = some p) :
    parseAmount raw = partsToRat p := by
  unfold parseAmount
  rw [if_neg h0]
  unfold jsParseFloat
  rw [h]
  rfl

lemma splitOnChar_ne_nil (sep : Char) (l : List Char) : splitOnChar sep l ≠ [] := by
  cases l with
  | nil => simp [splitOnChar]
  | cons c t =>
    unfold splitOnChar
    cases h : splitOnChar sep t with
    | nil => simp
    | cons a r =>
      dsimp only
      split <;> simp

lemma splitOnChar_cons (sep a : Char) (t : List Char) :
    splitOnChar sep (a :: t) =
      match splitOnChar sep t with
      | [] => [[]]
      | h :: r => if a = sep then [] :: h :: r else (a :: h) :: r := rfl

lemma mem_splitOnChar (sep : Char) :
    ∀ (l p : List Char) (c : Char), p ∈ splitOnChar sep l → c ∈ p → c ∈ l := by
  intro l
  induction l with
  | nil =>
    intro p c hp hc
    simp only [splitOnChar, List.mem_singleton] at hp
    subst hp
    simp at hc
  | cons a t ih =>
    intro p c hp hc
    rw [splitOnChar_cons] at hp
    cases h : splitOnChar sep t with
    | nil => exact absurd h (splitOnChar_ne_nil sep t)
    | cons hd rt =>
      rw [h] at hp
      dsimp only at hp
      by_cases hcs : a = sep
      · rw [if_pos hcs] at hp
        rcases List.mem_cons.1 hp with hp | hp
        · subst hp; simp at hc
        · exact List.mem_cons_of_mem _ (ih _ c (by rw [h]; exact hp) hc)
      · rw [if_neg hcs] at hp
        rcases List.mem_cons.1 hp with hp | hp
        · subst hp
          rcases List.mem_cons.1 hc with rfl | hc
          · exact List.mem_cons_self _ _
          · exact List.mem_cons_of_mem _
              (ih hd c (by rw [h]; exact List.mem_cons_self _ _) hc)
        · exact List.mem_cons_of_mem _
            (ih _ c (by rw [h]; exact List.mem_cons_of_mem _ hp) hc)

lemma getLastD_mem {α : Type} (l : List α) (d : α) (h : l ≠ []) : l.getLastD d ∈ l := by
  induction l generalizing d with
  | nil => exact absurd rfl h
  | cons a t ih =>
    cases t with
    | nil => simp [List.getLastD]
    | cons b t2 =>
      rw [List.getLastD_cons]
      exact List.mem_cons_of_mem _ (ih a (by simp))

lemma mem_stripOther {c : Char} {l : List Char} (h : c ∈ stripOther l) : c ∈ l :=
  (List.mem_filter.1 h).1

lemma mem_fixSeparators {c : Char} {l : List Char} (h : c ∈ fixSeparators l) :
    c ∈ l ∨ c = '.' := by
  unfold fixSeparators at h
  split_ifs at h with h1 h2
  · rcases List.mem_map.1 h with ⟨c0, hc0, rfl⟩
    by_cases hc : c0 = ','
    · right; simp [hc]
    · left; have := (List.mem_filter.1 hc0).1; simpa [hc] using this
  · rcases List.mem_map.1 h with ⟨c0, hc0, rfl⟩
    by_cases hc : c0 = ','
    · right; simp [hc]
    · left; simpa [hc] using hc0
  · left; exact h

lemma mem_collapseDots {c : Char} {l : List Char} (h : c ∈ collapseDots l) :
    c ∈ l ∨ c = '.' := by
  simp only [collapseDots] at h
  split_ifs at h with hlen
  · rcases List.mem_append.1 h with h | h
    · rcases List.mem_flatten.1 h with ⟨p, hp, hcp⟩
      have hp' : p ∈ splitOnChar '.' l := (List.dropLast_sublist _).subset hp
      exact Or.inl (mem_splitOnChar '.' l p c hp' hcp)
    · rcases List.mem_cons.1 h with rfl | h
      · exact Or.inr rfl
      · have hlast : (splitOnChar '.' l).getLastD [] ∈ splitOnChar '.' l :=
          getLastD_mem _ _ (splitOnChar_ne_nil '.' l)
        exact Or.inl (mem_splitOnChar '.' l _ c hlast h)
  · exact Or.inl h

/-- Every character surviving the three cleaning stages of `parseAmount`
was in the raw input, except for the decimal dot the stages introduce. -/
lemma mem_amount_pipeline {c : Char} {raw : List Char}
    (h : c ∈ collapseDots (fixSeparators (stripOther raw))) : c ∈ raw ∨ c = '.' := by
  rcases mem_collapseDots h with h | h
  · rcases mem_fixSeparators h with h | h
    · exact Or.inl (mem_stripOther h)
    · exact Or.inr h
  · exact Or.inr h

lemma partsToRat_nonneg {p : Bool × Nat × Nat × Nat} (h : p.1 = false) :
    0 ≤ partsToRat p := by
  unfold partsToRat
  rw [h, if_neg (by simp), one_mul]
  have h1 : (0 : ℚ) ≤ (p.2.1 : ℚ) := Nat.cast_nonneg _
  have h2 : (0 : ℚ) ≤ (p.2.2.1 : ℚ) / (10 : ℚ) ^ p.2.2.2 :=
    div_nonneg (Nat.cast_nonneg _) (by positivity)
  linarith

lemma headD_ne_minus {l : List Char} (h : ('-') ∉ l) : l.headD ' ' ≠ '-' := by
  cases l with
  | nil => decide
  | cons a t =>
    simp only [List.headD_cons]
    intro hc
    subst hc
    exact h (List.mem_cons_self _ _)

lemma jsParseFloatParts_not_neg {l : List Char} (h : ('-') ∉ l) (p : Bool × Nat × Nat × Nat)
    (hp : jsParseFloatParts l = some p) : p.1 = false := by
  have hfalse : decide (l.headD ' ' = '-') = false := by
    simp only [decide_eq_false_iff_not]
    exact headD_ne_minus h
  unfold jsParseFloatParts at hp
  dsimp only at hp
  rw [hfalse] at hp
  split_ifs at hp
  all_goals first
    | exact Option.noConfusion hp
    | (injection hp with hp; subst hp; rfl)

lemma parseAmount_nonneg_of_no_minus (raw : String) (h : ('-') ∉ raw.data) :
    0 ≤ parseAmount raw := by
  unfold parseAmount
  split_ifs with h0
  · exact le_refl 0
  · have hm : ('-') ∉ collapseDots (fixSeparators (stripOther raw.data)) := by
      intro hc
      rcases mem_amount_pipeline hc with hc | hc
      · exact h hc
      · exact absurd hc (by decide)
    unfold jsParseFloat
    cases hp : jsParseFloatParts (collapseDots (fixSeparators (stripOther raw.data))) with
    | none => simp
    | some p =>
      simp only [Option.map_some', Option.getD_some]
      exact partsToRat_nonneg (jsParseFloatParts_not_neg hm p hp)

lemma takeWhile_isDigit_nil {r : List Char} (h : ∀ c ∈ r, c.isDigit = false) :
    r.takeWhile (fun c => c.isDigit) = [] := by
  cases r with
  | nil => rfl
  | cons c t =>
    rw [List.takeWhile_cons]
    simp [h c (List.mem_cons_self _ _)]

lemma fp_part_nil (r : List Char) (hr : ∀ c ∈ r, c.isDigit = false) :
    (if (r.drop (r.takeWhile (fun c => c.isDigit)).length).headD ' ' = '.'
     then (r.drop (r.takeWhile (fun c => c.isDigit)).length).tail.takeWhile
       (fun c => c.isDigit)
     else []) = [] := by
  rw [takeWhile_isDigit_nil hr]
  simp only [List.length_nil, List.drop_zero]
  split_ifs with hdot
  · apply takeWhile_isDigit_nil
    intro c hc
    exact hr c (List.mem_of_mem_tail hc)
  · rfl

lemma jsParseFloatParts_none_of_no_digit {l : List Char}
    (h : ∀ c ∈ l, c.isDigit = false) : jsParseFloatParts l = none := by
  unfold jsParseFloatParts
  dsimp only
  set r := (if (decide (l.headD ' ' = '-') || decide (l.headD ' ' = '+')) = true
    then l.tail else l) with hrdef
  have hr : ∀ c ∈ r, c.isDigit = false := by
    rw [hrdef]
    intro c hc
    split at hc
    · exact h c (List.mem_of_mem_tail hc)
    · exact h c hc
  rw [fp_part_nil r hr, takeWhile_isDigit_nil hr]
  simp

lemma parseAmount_zero_of_no_digit (raw : String)
    (h : ∀ c ∈ raw.data, c.isDigit = false) : parseAmount raw = 0 := by
  unfold parseAmount
  split_ifs with h0
  · rfl
  · have hall : ∀ c ∈ collapseDots (fixSeparators (stripOther raw.data)),
        c.isDigit = false := by
      intro c hc
      rcases mem_amount_pipeline hc with hc | rfl
      · exact h c hc
      · rfl
    unfold jsParseFloat
    rw [jsParseFloatParts_none_of_no_digit hall]
    rfl

lemma jsSetDedup_foldl_nodup :
    ∀ (l acc : List Nat), acc.Nodup →
      (l.foldl (fun acc a => if a ∈ acc then acc else acc ++ [a]) acc).Nodup := by
  intro l
  induction l with
  | nil => intro acc h; exact h
  | cons a t ih =>
    intro acc h
    simp only [List.foldl_cons]
    by_cases ha : a ∈ acc
    · rw [if_pos ha]; exact ih acc h
    · rw [if_neg ha]
      refine ih _ ?_
      simp [List.nodup_append, h, ha]

lemma jsSetDedup_nodup (l : List Nat) : (jsSetDedup l).Nodup :=
  jsSetDedup_foldl_nodup l [] List.nodup_nil

lemma foldl_add_importe (rows : List RejectionRecord) :
    ∀ init : ℚ, rows.foldl (fun s r => s + r.importe) init
      = init + (rows.map (fun r => r.importe)).sum := by
  induction rows with
  | nil => intro init; simp
  | cons r t ih => intro init; simp [List.foldl_cons, ih, add_assoc]

lemma take_min_length {α : Type} (l : List α) (n : Nat) :
    l.take (min n l.length) = l.take n := by
  rcases Nat.le_total n l.length with h | h
  · rw [min_eq_left h]
  · rw [min_eq_right h, List.take_length, List.take_of_length_le h]

/-! ## Claim theorems -/

/-- Claim C1, counterexample: the claimed worked example
`parse("1,234.56") == 1234.56` is false for the code.  With both `.` and
`,` present the code removes every `.` and turns `,` into the decimal
point, so `"1,234.56"` becomes `"1.23456"` and parses to 1.23456. -/
theorem parseAmount_mixed_cex : parseAmount "1,234.56" ≠ (1234.56 : ℚ) := by
  rw [parseAmount_parts "1,234.56" (false, 1, 23456, 5) (by decide) rfl]
  norm_num [partsToRat]

/-- Claim C1, amended: the worked examples of `parseAmount` as the code
actually computes them — `parse("1.234,56") = 1234.56`,
`parse("1,234.56") = 1.23456` (not 1234.56), `parse("1234,56") = 1234.56`,
`parse("") = 0`, `parse("abc") = 0`; the both-separators disambiguation
rule (remove all `.`, `,` becomes the decimal point) is as claimed. -/
theorem parseAmount_worked_examples :
    parseAmount "1.234,56" = (1234.56 : ℚ)
    ∧ parseAmount "1,234.56" = (1.23456 : ℚ)
    ∧ parseAmount "1234,56" = (1234.56 : ℚ)
    ∧ parseAmount "" = 0
    ∧ parseAmount "abc" = 0 := by
  refine ⟨?_, ?_, ?_, rfl, rfl⟩
  · rw [parseAmount_parts "1.234,56" (false, 1234, 56, 2) (by decide) rfl]
    norm_num [partsToRat]
  · rw [parseAmount_parts "1,234.56" (false, 1, 23456, 5) (by decide) rfl]
    norm_num [partsToRat]
  · rw [parseAmount_parts "1234,56" (false, 1234, 56, 2) (by decide) rfl]
    norm_num [partsToRat]

/-- Claim C3, counterexample: `parseAmount` is not always non-negative —
the stripping regex keeps `-`, so `parse("-5")` returns -5 < 0. -/
theorem parseAmount_negative_cex : parseAmount "-5" < 0 := by
  rw [parseAmount_parts "-5" (true, 5, 0, 0) (by decide) rfl]
  norm_num [partsToRat]

/-- Claim C3, amended: `parseAmount` is total (a Lean function) and never
raises; absent input yields 0; input without a digit yields 0; the result
is non-negative for every input not containing `-`, but an input with a
leading `-` parses to a negative value (`parse("-5") = -5`). -/
theorem parseAmount_total_props :
    (∀ raw : String, ('-') ∉ raw.data → 0 ≤ parseAmount raw)
    ∧ (∀ raw : String, (∀ c ∈ raw.data, c.isDigit = false) → parseAmount raw = 0)
    ∧ parseAmountAny none = 0
    ∧ parseAmount "-5" = -5 := by
  refine ⟨parseAmount_nonneg_of_no_minus, parseAmount_zero_of_no_digit, rfl, ?_⟩
  rw [parseAmount_parts "-5" (true, 5, 0, 0) (by decide) rfl]
  norm_num [partsToRat]

/-- Claim C3 witness: the amended theorem applied at concrete inputs
`"12,3"` (no minus sign) and `"abc."` (no digit). -/
theorem parseAmount_total_props_witness :
    0 ≤ parseAmount "12,3" ∧ parseAmount "abc." = 0 :=
  ⟨parseAmount_total_props.1 "12,3" (by decide),
   parseAmount_total_props.2.1 "abc." (by decide)⟩

/-- Claim C8: for every record sequence the aggregate satisfies
`totalCount = length of the returned records` and `totalAmount = sum of
the amounts of those same records`; the empty sequence yields 0 and 0.0. -/
theorem batchAggregator_totals :
    ∀ rows : List RejectionRecord,
      (aggregateRows rows).totalTransactions = (aggregateRows rows).results.length
      ∧ (aggregateRows rows).totalAmount
          = ((aggregateRows rows).results.map (fun r => r.importe)).sum
      ∧ (aggregateRows rows).results = rows
      ∧ aggregateRows [] = { results := [], totalTransactions := 0, totalAmount := 0 } := by
  intro rows
  refine ⟨rfl, ?_, rfl, rfl⟩
  show rows.foldl (fun s r => s + r.importe) 0 = _
  rw [foldl_add_importe rows 0, zero_add]
  rfl

/-- Claim C5: the row-index mapping never yields an out-of-range index.
Line-oriented transform (`index = registro * 2`): every accepted index `i`
satisfies `1 ≤ i ≤ totalLines`; tabular transform (`index = registro + 1`,
already applied inside `extractRowNumbersFromPdf`): every accepted index
satisfies `0 ≤ i < rowCount`; out-of-range indices are omitted, and both
handlers still complete with a success payload. -/
theorem rowIndexMapper_bounds :
    (∀ (registros : List Nat) (totalLines i : Nat),
      i ∈ acceptedLineIndices registros totalLines → 1 ≤ i ∧ i ≤ totalLines)
    ∧ (∀ (rowNumbers : List Nat) (rowCount i : Nat),
      i ∈ acceptedRowIndices rowNumbers rowCount → 0 ≤ i ∧ i < rowCount)
    ∧ (∀ (registros : List Nat) (totalLines i : Nat),
      ¬(1 ≤ i ∧ i ≤ totalLines) → i ∉ acceptedLineIndices registros totalLines)
    ∧ (∀ (rowNumbers : List Nat) (rowCount i : Nat),
      ¬(i < rowCount) → i ∉ acceptedRowIndices rowNumbers rowCount)
    ∧ (∀ (pdf txt code desc : String),
      ∃ p, processPreBcpTxt (some pdf) (some txt) code desc = Except.ok p)
    ∧ (∀ (pdf : String) (data : List (List String)) (code desc : String),
      ∃ p, processPreBcpXlsx (some pdf) (some data) code desc = Except.ok p) := by
  refine ⟨?_, ?_, ?_, ?_, ?_, ?_⟩
  · intro registros totalLines i hi
    have := (List.mem_filter.1 hi).2
    simpa using this
  · intro rowNumbers rowCount i hi
    have := (List.mem_filter.1 hi).2
    simpa using this
  · intro registros totalLines i hbad hi
    have := (List.mem_filter.1 hi).2
    simp at this
    exact hbad this
  · intro rowNumbers rowCount i hbad hi
    have := (List.mem_filter.1 hi).2
    simp at this
    exact hbad this
  · intro pdf txt code desc
    exact ⟨_, rfl⟩
  · intro pdf data code desc
    exact ⟨_, rfl⟩

/-- Claim C5 witness: the bound theorem applied at concrete inputs —
registro 3 maps to accepted line index 6 of a 10-line target, and row
number 4 is accepted against a 9-row sheet. -/
theorem rowIndexMapper_bounds_witness :
    (1 ≤ 6 ∧ 6 ≤ 10) ∧ ((0:Nat) ≤ 4 ∧ 4 < 9) :=
  ⟨rowIndexMapper_bounds.1 [3] 10 6 (by decide),
   rowIndexMapper_bounds.2.1 [4] 9 4 (by decide)⟩

/-- Claim C7: `extractRegistrosFromPdf` scans for `Registro` + whitespace +
1–5 digits; its output is sorted ascending and duplicate-free, re-running
on identical text yields the identical sequence, a text with no match
yields the empty sequence, and the spec's worked example holds. -/
theorem registroExtractor_props :
    (∀ t : List Char,
      (extractRegistrosFromPdf t).Sorted (· ≤ ·) ∧ (extractRegistrosFromPdf t).Nodup)
    ∧ (∀ t : List Char, extractRegistrosFromPdf t = extractRegistrosFromPdf t)
    ∧ (∀ t : List Char, scanRegistros t = [] → extractRegistrosFromPdf t = [])
    ∧ extractRegistrosFromPdf ("Registro 3 ... Registro 1 ... Registro 3").data
        = [1, 3] := by
  refine ⟨?_, fun t => rfl, ?_, by decide⟩
  · intro t
    constructor
    · exact List.sorted_insertionSort _ _
    · exact (List.perm_insertionSort _ _).nodup_iff.2 (jsSetDedup_nodup _)
  · intro t h
    unfold extractRegistrosFromPdf
    rw [h]
    rfl

/-- Claim C7 witness: the no-match clause applied at the concrete
matchless text `"sin registros aqui"`. -/
theorem registroExtractor_props_witness :
    extractRegistrosFromPdf ("sin registros aqui").data = [] :=
  registroExtractor_props.2.2.1 _ (by decide)

/-- Claim C2, counterexample: a PDF text with no `Registro` markers makes
the text+PDF handler return a success payload with an empty record set
(`results = []`, zero totals) — not the error result the claim requires. -/
theorem noMarkers_success_cex :
    processPreBcpTxt (some "informe sin marcadores") (some "linea uno\nlinea dos")
        "R001" "DOCUMENTO ERRADO"
      = Except.ok { results := [], totalTransactions := 0, totalAmount := 0 } := rfl

/-- Claim C2, amended: when the PDF text contains no record-number
markers, both the text+PDF and the spreadsheet+PDF handlers complete
successfully with an empty record set and zero totals — they do not
surface an error result. -/
theorem noMarkers_empty_success :
    (∀ (pdfText txt code desc : String), scanRegistros pdfText.data = [] →
      processPreBcpTxt (some pdfText) (some txt) code desc =
        Except.ok { results := [], totalTransactions := 0, totalAmount := 0 })
    ∧ (∀ (pdfText : String) (data : List (List String)) (code desc : String),
      scanRegistrosUnbounded pdfText.data = [] →
      processPreBcpXlsx (some pdfText) (some data) code desc =
        Except.ok { results := [], totalTransactions := 0, totalAmount := 0 }) := by
  constructor
  · intro pdfText txt code desc h
    have hreg : extractRegistrosFromPdf pdfText.data = [] := by
      unfold extractRegistrosFromPdf
      rw [h]
      rfl
    show Except.ok (aggregateRows ((acceptedLineIndices (extractRegistrosFromPdf pdfText.data)
        (splitOnChar '\n' txt.data).length).map
        (fun i => buildTxtRecord ((splitOnChar '\n' txt.data).getD (i - 1) []) code desc))) = _
    rw [hreg]
    rfl
  · intro pdfText data code desc h
    have hrow : extractRowNumbersFromPdf pdfText.data = [] := by
      unfold extractRowNumbersFromPdf
      rw [h]
      rfl
    show Except.ok (aggregateRows (((acceptedRowIndices (extractRowNumbersFromPdf pdfText.data)
        data.length).map (fun i => data.getD i [])).map
        (fun row => buildXlsxRecord row code desc))) = _
    rw [hrow]
    rfl

/-- Claim C2 witness: the amended theorem applied at concrete marker-free
inputs on both paths. -/
theorem noMarkers_empty_success_witness :
    processPreBcpTxt (some "sin marcas") (some "a\nb") "R002" "CUENTA INVALIDA" =
      Except.ok { results := [], totalTransactions := 0, totalAmount := 0 }
    ∧ processPreBcpXlsx (some "sin marcas") (some [["x"], ["y"]]) "R002" "CUENTA INVALIDA" =
      Except.ok { results := [], totalTransactions := 0, totalAmount := 0 } :=
  ⟨noMarkers_empty_success.1 "sin marcas" "a\nb" "R002" "CUENTA INVALIDA" rfl,
   noMarkers_empty_success.2 "sin marcas" [["x"], ["y"]] "R002" "CUENTA INVALIDA" rfl⟩

/-- Claim C4: on the text path, when the PDF text's only marker is
`Registro 5` and the companion text has at least 10 lines, exactly one
record is produced, read from line index 9 (`5 * MULT - 1` with
`MULT = 2`), and its rejection code is `"R001"`. -/
theorem preBcpTxt_registro5 (pdfText txt : String)
    (h1 : extractRegistrosFromPdf pdfText.data = [5])
    (h2 : 10 ≤ (splitOnChar '\n' txt.data).length) :
    processPreBcpTxt (some pdfText) (some txt) "R001" "DOCUMENTO ERRADO" =
      Except.ok
        { results := [buildTxtRecord ((splitOnChar '\n' txt.data).getD (5 * MULT - 1) [])
            "R001" "DOCUMENTO ERRADO"]
          totalTransactions := 1
          totalAmount := (buildTxtRecord ((splitOnChar '\n' txt.data).getD 9 [])
            "R001" "DOCUMENTO ERRADO").importe }
    ∧ (buildTxtRecord ((splitOnChar '\n' txt.data).getD 9 [])
        "R001" "DOCUMENTO ERRADO").codigoRechazo = "R001" := by
  have hacc : acceptedLineIndices [5] (splitOnChar '\n' txt.data).length = [10] := by
    unfold acceptedLineIndices
    have hs : List.insertionSort (· ≤ ·) ([5].map (fun r => r * MULT)) = [10] := rfl
    rw [hs]
    simp [List.filter_cons, List.filter_nil, h2]
  constructor
  · show Except.ok (aggregateRows ((acceptedLineIndices (extractRegistrosFromPdf pdfText.data)
        (splitOnChar '\n' txt.data).length).map
        (fun i => buildTxtRecord ((splitOnChar '\n' txt.data).getD (i - 1) [])
          "R001" "DOCUMENTO ERRADO"))) = _
    rw [h1, hacc]
    simp only [List.map_cons, List.map_nil]
    unfold aggregateRows
    simp only [List.length_cons, List.length_nil, List.foldl_cons, List.foldl_nil, zero_add]
    norm_num [MULT]
  · rfl

/-- Claim C4 witness: the end-to-end theorem applied at a concrete PDF
text `"Registro 5"` and a concrete 10-line companion text. -/
theorem preBcpTxt_registro5_witness :
    processPreBcpTxt (some "Registro 5") (some "a\nb\nc\nd\ne\nf\ng\nh\ni\nj")
        "R001" "DOCUMENTO ERRADO" =
      Except.ok
        { results := [buildTxtRecord
            ((splitOnChar '\n' ("a\nb\nc\nd\ne\nf\ng\nh\ni\nj").data).getD (5 * MULT - 1) [])
            "R001" "DOCUMENTO ERRADO"]
          totalTransactions := 1
          totalAmount := (buildTxtRecord
            ((splitOnChar '\n' ("a\nb\nc\nd\ne\nf\ng\nh\ni\nj").data).getD 9 [])
            "R001" "DOCUMENTO ERRADO").importe }
    ∧ (buildTxtRecord ((splitOnChar '\n' ("a\nb\nc\nd\ne\nf\ng\nh\ni\nj").data).getD 9 [])
        "R001" "DOCUMENTO ERRADO").codigoRechazo = "R001" :=
  preBcpTxt_registro5 "Registro 5" "a\nb\nc\nd\ne\nf\ng\nh\ni\nj" (by decide) (by decide)

/-- Sample qualifying sheet rows used by the IBK witnesses. -/
def ibkRowNoTitular : List String :=
  ["", "", "", "", "12345678", "JUAN PEREZ", "", "REF1", "", "", "", "", "", "100",
   "cliente no titular"]

def ibkRowSaldo : List String :=
  ["", "", "", "", "87654321", "ANA LOPEZ", "", "REF2", "", "", "", "", "", "200",
   "saldo insuficiente"]

def ibkRowContinuar : List String :=
  ["", "", "", "", "11223344", "LUIS DIAZ", "", "REF3", "", "", "", "", "", "300",
   "si deseas, puedes continuar"]

/-- Sample sheet: 11 header rows followed by the three sample rows. -/
def ibkSampleData : List (List String) :=
  List.replicate 11 [] ++ [ibkRowNoTitular, ibkRowSaldo, ibkRowContinuar]

/-- Claim C6: on the archive path, every row at index 11 or later whose
status column (index 14) is non-empty yields an emitted record whose code
is `"R016"` exactly when a keyword of the fixed `KEYWORDS_NO_TIT` list
occurs in the lower-cased status and `"R002"` otherwise; in particular
status `"cliente no titular"` yields `"R016"` and `"saldo insuficiente"`
yields `"R002"`. -/
theorem ibk_keyword_classification :
    ∀ (data : List (List String)) (row : List String),
      row ∈ data.drop 11 →
      jsTrimS (cellD row 14) ≠ "" →
      (mkIbkRecord row ∈ (processRechazoIbkData data).results
       ∧ (ibkNoTitular (cellD row 14) = true → (mkIbkRecord row).codigoRechazo = "R016")
       ∧ (ibkNoTitular (cellD row 14) = false → (mkIbkRecord row).codigoRechazo = "R002")
       ∧ (cellD row 14 = "cliente no titular" → (mkIbkRecord row).codigoRechazo = "R016")
       ∧ (cellD row 14 = "saldo insuficiente" → (mkIbkRecord row).codigoRechazo = "R002")) := by
  intro data row hdrop htrim
  have hqual : row ∈ ibkQualifyingRows data := by
    unfold ibkQualifyingRows
    exact List.mem_filter.2 ⟨hdrop, by simpa using htrim⟩
  refine ⟨?_, ?_, ?_, ?_, ?_⟩
  · show mkIbkRecord row ∈ (ibkQualifyingRows data).map mkIbkRecord
    exact List.mem_map_of_mem _ hqual
  · intro h
    simp [mkIbkRecord, h]
  · intro h
    simp [mkIbkRecord, h]
  · intro h
    have hh : ibkNoTitular (cellD row 14) = true := by rw [h]; decide
    simp [mkIbkRecord, hh]
  · intro h
    have hh : ibkNoTitular (cellD row 14) = false := by rw [h]; decide
    simp [mkIbkRecord, hh]

/-- Claim C6 witness: the classification theorem applied to two concrete
qualifying rows of a concrete sheet — status `"cliente no titular"` gives
code `"R016"`, status `"saldo insuficiente"` gives code `"R002"`. -/
theorem ibk_keyword_classification_witness :
    (mkIbkRecord ibkRowNoTitular).codigoRechazo = "R016"
    ∧ (mkIbkRecord ibkRowSaldo).codigoRechazo = "R002" :=
  ⟨(ibk_keyword_classification ibkSampleData ibkRowNoTitular (by decide)
      (by decide)).2.2.2.1 rfl,
   (ibk_keyword_classification ibkSampleData ibkRowSaldo (by decide)
      (by decide)).2.2.2.2 rfl⟩

/-- Claim C10: on the archive path, any qualifying row whose lower-cased
status contains the substring `"continuar"` — whatever the surrounding
text — is classified `"R016"` / `"CLIENTE NO TITULAR DE LA CUENTA"`,
never `"R002"`, and its record is emitted. -/
theorem ibk_continuar_R016 :
    ∀ (data : List (List String)) (row : List String),
      row ∈ data.drop 11 →
      jsTrimS (cellD row 14) ≠ "" →
      hasSub ("continuar").data (jsLower (cellD row 14)).data = true →
      ((mkIbkRecord row).codigoRechazo = "R016"
       ∧ (mkIbkRecord row).descripcionRechazo = "CLIENTE NO TITULAR DE LA CUENTA"
       ∧ (mkIbkRecord row).codigoRechazo ≠ "R002"
       ∧ mkIbkRecord row ∈ (processRechazoIbkData data).results) := by
  intro data row hdrop htrim hkw
  have hnt : ibkNoTitular (cellD row 14) = true := by
    unfold ibkNoTitular
    refine List.any_eq_true.2 ⟨"continuar", ?_, hkw⟩
    simp [KEYWORDS_NO_TIT]
  have hcode : (mkIbkRecord row).codigoRechazo = "R016" := by
    simp [mkIbkRecord, hnt]
  refine ⟨hcode, by simp [mkIbkRecord, hnt], by rw [hcode]; decide, ?_⟩
  have hqual : row ∈ ibkQualifyingRows data := by
    unfold ibkQualifyingRows
    exact List.mem_filter.2 ⟨hdrop, by simpa using htrim⟩
  show mkIbkRecord row ∈ (ibkQualifyingRows data).map mkIbkRecord
  exact List.mem_map_of_mem _ hqual

/-- Claim C10 witness: the theorem applied to a concrete qualifying row
whose status is the unrelated text `"si deseas, puedes continuar"`. -/
theorem ibk_continuar_R016_witness :
    (mkIbkRecord ibkRowContinuar).codigoRechazo = "R016"
    ∧ (mkIbkRecord ibkRowContinuar).descripcionRechazo
        = "CLIENTE NO TITULAR DE LA CUENTA" :=
  ⟨(ibk_continuar_R016 ibkSampleData ibkRowContinuar (by decide) (by decide)
      (by decide)).1,
   (ibk_continuar_R016 ibkSampleData ibkRowContinuar (by decide) (by decide)
      (by decide)).2.1⟩

/-- Claim C9: `sliceFixed` is total and trims — `extract("",1,5) = ""`,
`extract("AB",1,10) = "AB"`, any line shorter than 200 characters gives
`""` for columns 200–210, and whenever the floored 0-based offset
`max 0 (startCol-1)` lies inside the line (and `endCol ≥ 0`), the result
is the substring from the offset through `endCol` clipped to the line's
length, trimmed of surrounding whitespace. -/
theorem fixedFieldExtractor_spec :
    sliceFixed ("").data 1 5 = ("").data
    ∧ sliceFixed ("AB").data 1 10 = ("AB").data
    ∧ (∀ line : List Char, line.length < 200 → sliceFixed line 200 210 = [])
    ∧ (∀ (line : List Char) (start stop : Int), line ≠ [] → 0 ≤ stop →
        max 0 (start - 1) < (line.length : Int) →
        sliceFixed line start stop =
          jsTrim ((line.take stop.toNat).drop (max 0 (start - 1)).toNat)) := by
  refine ⟨rfl, rfl, ?_, ?_⟩
  · intro line hlen
    simp only [sliceFixed]
    split_ifs with h0 hin
    · rfl
    · exfalso
      norm_num at hin
      omega
    · rfl
  · intro line start stop hne hstop hidx
    simp only [sliceFixed]
    rw [if_neg hne, if_pos hidx]
    congr 1
    simp only [jsSlice]
    rw [if_neg (not_lt.2 (le_max_left 0 _)), if_neg (not_lt.2 hstop),
      min_eq_left (le_of_lt hidx)]
    by_cases hg : max 0 (start - 1) < min stop (line.length : Int)
    · rw [if_pos hg,
        show (min stop (line.length : Int)).toNat = min stop.toNat line.length from by omega,
        take_min_length]
    · rw [if_neg hg]
      symm
      apply List.drop_eq_nil_of_le
      rw [List.length_take]
      omega

/-- Claim C9 witness: the short-line clause applied at the one-character
line `"X"`, and the general clause applied at line `"  AB  "` with
columns 1–6. -/
theorem fixedFieldExtractor_spec_witness :
    sliceFixed ("X").data 200 210 = []
    ∧ sliceFixed ("  AB  ").data 1 6 =
        jsTrim ((("  AB  ").data.take (6 : Int).toNat).drop
          (max 0 ((1 : Int) - 1)).toNat) :=
  ⟨fixedFieldExtractor_spec.2.2.1 ("X").data (by decide),
   fixedFieldExtractor_spec.2.2.2 ("  AB  ").data 1 6 (by decide) (by decide) (by decide)⟩

end Rechazos
